import Mathlib

/-
Verification of the connection/session manager of `src/Torque_dashboad.py`
(ESP32 torque dashboard).  The Python source is shallowly embedded below:

* pure decisions (classification, payload decoding, device filtering) become
  Lean functions;
* the Qt-signal handlers and the connection-monitor timer become pure state
  transformers over an explicit `DashState`, and a trace semantics `runTrace`
  applies a list of events (handler invocations plus environment moves such
  as a silent link drop) sequentially;
* the BLE read loop becomes a recursion over the per-iteration snapshots of
  the shared flags it reads, emitting the list of transport operations and
  notifications it performs.

Machine integers do not overflow in the relevant paths (Python ints are
unbounded), so values are `Int`/`Nat`.
-/

namespace Torque

/-! ## Classification (`on_data_received`, lines 535-550)

`on_data_received` classifies a reading with `if torque_value > THRESHOLD`
(strict), rendering a HIGH alert in the then-branch and a normal display in
the else-branch. -/

inductive TorqueClass
  | Normal
  | High
  deriving DecidableEq, Repr

/-- Embeds the threshold comparison of `on_data_received`
(`if torque_value > THRESHOLD :` high alert `else` normal display). -/
def classify (value threshold : Int) : TorqueClass :=
  if value > threshold then TorqueClass.High else TorqueClass.Normal

/-! ## Discovery (`scan_ble_devices_safe`, lines 348-373)

For each discovered device the scan computes `device_name = device.name or
"Unknown"` (so a `None` or empty name becomes `"Unknown"`), emits a
`device_found` signal when `"ESP32_To" in device_name`, and `break`s after
the first match. -/

structure BLEDevice where
  address : String
  name : Option String
  deriving DecidableEq, Repr

/-- `device.name or "Unknown"`: Python's `or` replaces a falsy name
(`None` or the empty string) by `"Unknown"`. -/
def effName (d : BLEDevice) : String :=
  match d.name with
  | none => "Unknown"
  | some s => if s.isEmpty then "Unknown" else s

/-- The configured name filter, substring `"ESP32_To"` (line 362). -/
def esp32Pattern : List Char := "ESP32_To".toList

/-- The membership test `"ESP32_To" in device_name` of line 362 (the
preceding `device_name and` is always true since `effName` is never
empty). -/
def matchesPattern (d : BLEDevice) : Bool :=
  decide (esp32Pattern <:+: (effName d).toList)

/-- The `for device in devices` loop of lines 357-367: emit `device_found`
for the first device passing `matchesPattern`, then `break`.  Returns the
list of devices for which a `device_found` signal is emitted, in emission
order. -/
def scanDeviceFoundEmits : List BLEDevice → List BLEDevice
  | [] => []
  | d :: ds => if matchesPattern d then [d] else scanDeviceFoundEmits ds

/-! ## Session state machine

The mutable fields of `TorqueDashboard` that the connection logic reads and
writes (UI widgets are omitted: they hold no session state).  `client_present`
models `self.ble_client is not None`, `client_connected` models
`self.ble_client.is_connected` (owned by the transport), and
`sensor_address` models the global `SENSOR_ADDRESS`. -/

structure DashState where
  app_running : Bool
  is_connected : Bool
  connection_active : Bool
  client_present : Bool
  client_connected : Bool
  retry_count : Nat
  max_retries : Nat
  auto_retry : Bool
  sensor_address : Option String
  deriving DecidableEq, Repr

/-- Observable side effects of the handlers (thread spawns and emitted
signals); log messages and widget updates are dropped. -/
inductive Action
  | spawnConnectWorker
  | spawnDisconnectWorker
  | autoRetryAttempt (n : Nat)
  | emitNoDeviceError
  deriving DecidableEq, Repr

/-- Python truthiness of `SENSOR_ADDRESS` in `if not SENSOR_ADDRESS:`
(line 394): falsy when `None` or empty. -/
def addrFalsy : Option String → Bool
  | none => true
  | some a => a.isEmpty

/-- `safe_connect_device` (lines 391-409): bail out with an error signal
when no address is known; otherwise set `connection_active = True` and
start a new connection thread.  There is no guard on an already active
connection. -/
def safe_connect_device (s : DashState) : DashState × List Action :=
  if addrFalsy s.sensor_address then
    (s, [Action.emitNoDeviceError])
  else
    ({s with connection_active := true}, [Action.spawnConnectWorker])

/-- `monitor_connection` (lines 265-290), the 5-second supervisor tick:
when the dashboard thinks it is connected but the client link is down, it
clears both flags and, if auto-retry is on and `retry_count < max_retries`,
increments `retry_count` (logging attempt `retry_count + 1`) and calls
`safe_connect_device`. -/
def monitor_connection (s : DashState) : DashState × List Action :=
  if !s.app_running then (s, [])
  else if s.is_connected && s.client_present && !s.client_connected then
    let s1 := {s with is_connected := false, connection_active := false}
    if s1.auto_retry && decide (s1.retry_count < s1.max_retries) then
      let s2 := {s1 with retry_count := s1.retry_count + 1}
      let r := safe_connect_device s2
      (r.1, Action.autoRetryAttempt s2.retry_count :: r.2)
    else (s1, [])
  else (s, [])

inductive ConnStatus
  | connected
  | failed
  deriving DecidableEq, Repr

/-- `on_connection_status` (lines 465-484): `"connected"` sets both flags
and resets `retry_count = 0`; `"failed"` clears both flags (and leaves
`retry_count` unchanged). -/
def on_connection_status (s : DashState) : ConnStatus → DashState
  | ConnStatus.connected =>
      {s with is_connected := true, connection_active := true, retry_count := 0}
  | ConnStatus.failed =>
      {s with is_connected := false, connection_active := false}

/-- `on_device_found` (lines 382-389): store the address globally and reset
`retry_count = 0`. -/
def on_device_found (s : DashState) (address _name : String) : DashState :=
  {s with sensor_address := some address, retry_count := 0}

/-- `on_error_occurred` (lines 292-306): any `error_occurred` signal clears
both connection flags (the rest of the handler only touches widgets). -/
def on_error_occurred (s : DashState) : DashState :=
  {s with is_connected := false, connection_active := false}

/-- `safe_disconnect_device` (lines 486-503): clear both flags, then spawn
a best-effort disconnect thread when a client exists. -/
def safe_disconnect_device (s : DashState) : DashState × List Action :=
  let s1 := {s with is_connected := false, connection_active := false}
  (s1, if s1.client_present then [Action.spawnDisconnectWorker] else [])

/-- One step of the dashboard: a handler invocation or an environment move.
`linkDrop` is the transport silently losing the link
(`ble_client.is_connected` turns false); `clientUp` is the connect worker
having created a client and connected it (lines 430-431), just before it
emits `connection_status("connected")`. -/
inductive Event
  | tick
  | status (st : ConnStatus)
  | errorOccurred
  | deviceFound (address name : String)
  | manualConnect
  | manualDisconnect
  | linkDrop
  | clientUp
  deriving DecidableEq, Repr

def step (s : DashState) : Event → DashState × List Action
  | Event.tick => monitor_connection s
  | Event.status st => (on_connection_status s st, [])
  | Event.errorOccurred => (on_error_occurred s, [])
  | Event.deviceFound a n => (on_device_found s a n, [])
  | Event.manualConnect => safe_connect_device s
  | Event.manualDisconnect => safe_disconnect_device s
  | Event.linkDrop => ({s with client_connected := false}, [])
  | Event.clientUp => ({s with client_present := true, client_connected := true}, [])

/-- Run a trace of events, accumulating the emitted actions in order. -/
def runTrace (s : DashState) : List Event → DashState × List Action
  | [] => (s, [])
  | e :: es =>
      let r := step s e
      let r2 := runTrace r.1 es
      (r2.1, r.2 ++ r2.2)

/-- The attempt numbers of the automatic reconnection attempts in an action
list (`autoRetryAttempt n` is emitted exactly when `monitor_connection`
initiates an automatic `safe_connect_device`). -/
def autoAttempts (acts : List Action) : List Nat :=
  acts.filterMap fun a =>
    match a with
    | Action.autoRetryAttempt n => some n
    | _ => none

/-- A healthy streaming session: connected, auto-retry enabled,
`retry_count = 0`, `max_retries = 3` (the source's constants, lines 66-68),
address known. -/
def streamingState : DashState :=
  { app_running := true, is_connected := true, connection_active := true,
    client_present := true, client_connected := true, retry_count := 0,
    max_retries := 3, auto_retry := true, sensor_address := some "AA:BB:CC:DD:EE:FF" }

/-- A trace of consecutive failures with no success, discovery, or manual
connect: the link drops, every retry connect attempt fails, and the
5-second supervisor keeps ticking. -/
def consecutiveFailureTrace : List Event :=
  [Event.linkDrop, Event.tick, Event.status ConnStatus.failed,
   Event.tick, Event.tick, Event.tick, Event.tick, Event.tick]

/-- A disconnected dashboard right after a successful scan (address known,
no client yet), with the source's retry constants and auto-retry on. -/
def idleState : DashState :=
  { app_running := true, is_connected := false, connection_active := false,
    client_present := false, client_connected := false, retry_count := 0,
    max_retries := 3, auto_retry := true, sensor_address := some "AA:BB:CC:DD:EE:FF" }

/-- The spec's "fail twice, succeed once, fail once more" trace: two manual
connect attempts that fail, one that succeeds, then a link drop handled by
the supervisor tick. -/
def failSucceedFailTrace : List Event :=
  [Event.manualConnect, Event.status ConnStatus.failed,
   Event.manualConnect, Event.status ConnStatus.failed,
   Event.manualConnect, Event.clientUp, Event.status ConnStatus.connected,
   Event.linkDrop, Event.tick]

/-! ## Read loop (`connect_ble_device_safe`, lines 427-454)

The loop re-reads the shared flags at the top of every iteration
(`while self.ble_client.is_connected and self.is_connected and
self.connection_active and self.app_running`).  A `LoopCtx` is the snapshot
of those flags at one iteration boundary together with the outcome of the
transport read the iteration would perform (`some bytes`, or `none` when
`read_gatt_char` raises). -/

structure LoopCtx where
  client_connected : Bool
  is_connected : Bool
  connection_active : Bool
  app_running : Bool
  readResult : Option (List Nat)
  deriving DecidableEq, Repr

/-- The loop guard of line 437-440. -/
def loopGuard (c : LoopCtx) : Bool :=
  c.client_connected && c.is_connected && c.connection_active && c.app_running

/-- `int.from_bytes(value, byteorder="little")` (line 443): little-endian
unsigned interpretation of an arbitrary-length byte string (Python ints are
unbounded, so no truncation). -/
def intFromBytesLE : List Nat → Int
  | [] => 0
  | b :: bs => (b : Int) + 256 * intFromBytesLE bs

/-- Observable operations of one run of the read loop, in order. -/
inductive LoopOp
  | transportRead
  | reading (v : Int)
  | errorEmit
  deriving DecidableEq, Repr

/-- The read loop of lines 437-448: while the guard holds, perform a
transport read; on success decode and emit `data_received`, sleep, and
iterate; on a read exception emit `error_occurred` and `break`.  When the
guard fails (in particular when the halt flag `connection_active` has been
cleared) the loop exits at once with no further transport call. -/
def readLoopOps : List LoopCtx → List LoopOp
  | [] => []
  | c :: cs =>
      if loopGuard c then
        match c.readResult with
        | some bs => LoopOp.transportRead :: LoopOp.reading (intFromBytesLE bs) :: readLoopOps cs
        | none => [LoopOp.transportRead, LoopOp.errorEmit]
      else []

/-! ## Scan driver (`run_scan_safe`, lines 329-346)

`run_scan_safe` awaits `scan_ble_devices_safe` under a 15-second deadline.
On a timeout or any other exception it emits `error_occurred` and
`scan_completed(False)`; the `finally:` block then emits
`scan_completed(True)` unconditionally, on every path. -/

inductive ScanEmit
  | deviceFoundSig (d : BLEDevice)
  | errorSig
  | scanCompletedSig (success : Bool)
  deriving DecidableEq, Repr

/-- How the awaited scan body ended. -/
inductive ScanOutcome
  | completed (ds : List BLEDevice)
  | timeout
  | raised
  deriving DecidableEq, Repr

/-- Signals emitted by `scan_ble_devices_safe` itself: one `device_found`
for the first matching device (none when there is no match — the no-match
case only logs, lines 369-370). -/
def scanBodyEmits (ds : List BLEDevice) : List ScanEmit :=
  (scanDeviceFoundEmits ds).map ScanEmit.deviceFoundSig

/-- All signals a scan emits, in order, by outcome (lines 329-346). -/
def run_scan_safe : ScanOutcome → List ScanEmit
  | ScanOutcome.completed ds => scanBodyEmits ds ++ [ScanEmit.scanCompletedSig true]
  | ScanOutcome.timeout =>
      [ScanEmit.errorSig, ScanEmit.scanCompletedSig false, ScanEmit.scanCompletedSig true]
  | ScanOutcome.raised =>
      [ScanEmit.errorSig, ScanEmit.scanCompletedSig false, ScanEmit.scanCompletedSig true]

/-- A completed enumeration containing no matching device. -/
def noMatchScan : List BLEDevice :=
  [{ address := "11:22:33:44:55:66", name := some "Foo" }]

/-! ## Reading sink (`on_data_received` / `save_torque_value`, lines 535-561) -/

inductive Display
  | highAlert (v : Int)
  | normalShow (v : Int)
  deriving DecidableEq, Repr

/-- Non-signal side effects visible from the data path. -/
inductive SinkEmit
  | errorSignal
  | logOnly
  deriving DecidableEq, Repr

/-- `save_torque_value` (lines 552-561): `dbFail` models the sqlite calls
raising.  The `except` branch only calls `log_message`; it emits no signal
and re-raises nothing, and the reading is then absent from the table. -/
def save_torque_value (dbFail : Bool) (db : List Int) (v : Int) :
    List Int × List SinkEmit :=
  if dbFail then (db, [SinkEmit.logOnly]) else (db ++ [v], [])

/-- `on_data_received` (lines 535-550): persist (failures swallowed inside
`save_torque_value`), then classify against the threshold and update the
display; the surrounding `except` (which would emit `error_occurred`) is
unreachable from a persistence failure. -/
def on_data_received (dbFail : Bool) (db : List Int) (threshold v : Int) :
    List Int × Display × List SinkEmit :=
  let r := save_torque_value dbFail db v
  let disp := if v > threshold then Display.highAlert v else Display.normalShow v
  (r.1, disp, r.2)

/-! ## Helper lemmas -/

/-- The effective-name test unfolds to: the device has a non-empty name
containing the pattern (the fallback `"Unknown"` never matches). -/
theorem matchesPattern_eq (d : BLEDevice) :
    matchesPattern d =
      (match d.name with
        | some s => !s.isEmpty && decide (esp32Pattern <:+: s.toList)
        | none => false) := by
  rcases d with ⟨addr, _ | s⟩
  · show decide (esp32Pattern <:+: ("Unknown").toList) = false
    decide
  · show decide (esp32Pattern <:+: (if s.isEmpty then "Unknown" else s).toList) = _
    rcases h : s.isEmpty
    · simp [h]
    · simp [h]
      decide

/-- Once every iteration context from position `k` on carries a cleared
halt flag, the loop behaves as if the context list stopped at `k`: the
guard fails at the `k`-th iteration boundary at the latest. -/
theorem readLoopOps_eq_take (ctxs : List LoopCtx) (k : Nat)
    (h : ((ctxs.drop k).all fun c => !c.connection_active) = true) :
    readLoopOps ctxs = readLoopOps (ctxs.take k) := by
  induction ctxs generalizing k with
  | nil => simp
  | cons c cs ih =>
    cases k with
    | zero =>
      simp only [List.drop_zero, List.all_cons, Bool.and_eq_true, Bool.not_eq_true'] at h
      simp [readLoopOps, loopGuard, h.1]
    | succ k =>
      simp only [List.drop_succ_cons] at h
      simp only [List.take_succ_cons, readLoopOps]
      rcases hg : loopGuard c
      · rfl
      · rcases c.readResult with _ | bs
        · rfl
        · simp [ih k h]

/-- Each loop iteration performs exactly one transport read, so a run over
`ctxs` performs at most `ctxs.length` transport reads. -/
theorem readLoopOps_read_count_le (ctxs : List LoopCtx) :
    (readLoopOps ctxs).count LoopOp.transportRead ≤ ctxs.length := by
  induction ctxs with
  | nil => simp [readLoopOps]
  | cons c cs ih =>
    simp only [readLoopOps]
    rcases hg : loopGuard c
    · simp
    · rcases c.readResult with _ | bs
      · simp [List.count_cons]
      · simp only [List.count_cons, List.length_cons]
        have : (LoopOp.reading (intFromBytesLE bs) == LoopOp.transportRead) = false := rfl
        simp [this]
        omega

theorem scanDeviceFoundEmits_eq_find (ds : List BLEDevice) :
    scanDeviceFoundEmits ds = (ds.find? matchesPattern).toList := by
  induction ds with
  | nil => rfl
  | cons d ds ih =>
    rcases h : matchesPattern d
    · simp [scanDeviceFoundEmits, List.find?, h, ih]
    · simp [scanDeviceFoundEmits, List.find?, h]

/-! ## Theorems -/

/-- C1: classification marks a reading High iff `value > threshold`
(strict); on the boundary `value = threshold` it is Normal. -/
theorem classify_high_iff_gt (v t : Int) :
    (classify v t = TorqueClass.High ↔ v > t) ∧ classify t t = TorqueClass.Normal := by
  constructor
  · unfold classify
    split
    · simp_all
    · simp_all
  · simp [classify]

/-- C2: the scan emits `device_found` only for devices whose non-empty name
contains `"ESP32_To"`, it emits it for the first matching device in
enumeration order (`List.find?`), and at most one `device_found` is emitted
per scan. -/
theorem scan_emits_first_match (ds : List BLEDevice) :
    (scanDeviceFoundEmits ds).all matchesPattern = true ∧
    (scanDeviceFoundEmits ds).all
      (fun d => match d.name with
        | some s => !s.isEmpty && decide (esp32Pattern <:+: s.toList)
        | none => false) = true ∧
    scanDeviceFoundEmits ds = (ds.find? matchesPattern).toList ∧
    (scanDeviceFoundEmits ds).length ≤ 1 := by
  refine ⟨?_, ?_, scanDeviceFoundEmits_eq_find ds, ?_⟩
  · induction ds with
    | nil => rfl
    | cons d ds ih =>
      rcases h : matchesPattern d
      · simpa [scanDeviceFoundEmits, h] using ih
      · simp [scanDeviceFoundEmits, h]
  · induction ds with
    | nil => rfl
    | cons d ds ih =>
      rcases h : matchesPattern d
      · simpa [scanDeviceFoundEmits, h] using ih
      · simp only [scanDeviceFoundEmits, h, if_true, List.all_cons, List.all_nil,
          Bool.and_true]
        exact matchesPattern_eq d ▸ h
  · induction ds with
    | nil => simp [scanDeviceFoundEmits]
    | cons d ds ih =>
      rcases h : matchesPattern d
      · simpa [scanDeviceFoundEmits, h] using ih
      · simp [scanDeviceFoundEmits, h]

/-- C3 (code behaviour at the failing input): from a streaming session with
`retry_count = 0`, `auto_retry = true`, `max_retries = 3`, a link drop
followed by consecutive failures and supervisor ticks produces exactly ONE
automatic reconnection attempt (numbered 1), not three: the tick clears
`is_connected` before retrying, and only a successful connection — excluded
here — ever sets it again, so every later tick skips the retry branch. -/
theorem monitor_single_auto_retry :
    autoAttempts (runTrace streamingState consecutiveFailureTrace).2 = [1] ∧
    (runTrace streamingState consecutiveFailureTrace).1.is_connected = false ∧
    (runTrace streamingState consecutiveFailureTrace).1.retry_count = 1 := by
  refine ⟨?_, ?_, ?_⟩ <;> rfl

/-- C4: a successful connection (`on_connection_status "connected"`) and a
new device discovery (`on_device_found`) both reset `retry_count` to 0; on
the trace fail, fail, succeed, fail the final failure is handled as
automatic attempt number 1, not 4. -/
theorem retry_count_reset (s : DashState) (a n : String) :
    (on_connection_status s ConnStatus.connected).retry_count = 0 ∧
    (on_device_found s a n).retry_count = 0 ∧
    autoAttempts (runTrace idleState failSucceedFailTrace).2 = [1] := by
  refine ⟨rfl, rfl, rfl⟩

/-- C5 (counterexample): while a streaming session is active
(`connection_active = true`), a repeated `safe_connect_device` call is NOT
a no-op — it spawns a second connect worker. -/
theorem safe_connect_spawns_second_worker :
    (safe_connect_device streamingState).2 = [Action.spawnConnectWorker] ∧
    streamingState.connection_active = true := by
  exact ⟨rfl, rfl⟩

/-- C5 (amended): whenever a device address is set — in particular while a
connect attempt or streaming session is active — `safe_connect_device`
unconditionally sets `connection_active` and spawns a new connect worker;
it never queues and never early-returns except on a missing address. -/
theorem safe_connect_always_spawns (s : DashState)
    (h : addrFalsy s.sensor_address = false) :
    safe_connect_device s = ({s with connection_active := true}, [Action.spawnConnectWorker]) := by
  simp [safe_connect_device, h]

/-- Witness for `safe_connect_always_spawns` at the streaming state. -/
theorem safe_connect_always_spawns_witness :
    addrFalsy streamingState.sensor_address = false ∧
    safe_connect_device streamingState =
      ({streamingState with connection_active := true}, [Action.spawnConnectWorker]) :=
  ⟨rfl, safe_connect_always_spawns streamingState rfl⟩

/-- C8: processing any `error_occurred` signal clears both `is_connected`
and `connection_active`, whatever the prior state and the error's origin;
hence a read loop whose next iteration observes those flags exits
immediately — no transport read, reading, or error emission follows. -/
theorem error_clears_flags_stops_loop (s : DashState) (cc ar : Bool)
    (rr : Option (List Nat)) (rest : List LoopCtx) :
    (on_error_occurred s).is_connected = false ∧
    (on_error_occurred s).connection_active = false ∧
    readLoopOps
      ({ client_connected := cc,
         is_connected := (on_error_occurred s).is_connected,
         connection_active := (on_error_occurred s).connection_active,
         app_running := ar, readResult := rr } :: rest) = [] := by
  refine ⟨rfl, rfl, ?_⟩
  simp [readLoopOps, loopGuard, on_error_occurred]

/-- C6: if from iteration boundary `k` on the halt flag
(`connection_active`) is observed cleared, the read loop performs nothing
beyond its first `k` iterations — it exits at the next boundary, and no
further reading emission or transport read occurs after the flag is
observed (at most `k` transport reads in total). -/
theorem stop_halts_read_loop (ctxs : List LoopCtx) (k : Nat)
    (h : ((ctxs.drop k).all fun c => !c.connection_active) = true) :
    readLoopOps ctxs = readLoopOps (ctxs.take k) ∧
    (readLoopOps ctxs).count LoopOp.transportRead ≤ k := by
  refine ⟨readLoopOps_eq_take ctxs k h, ?_⟩
  calc (readLoopOps ctxs).count LoopOp.transportRead
      = (readLoopOps (ctxs.take k)).count LoopOp.transportRead := by
        rw [readLoopOps_eq_take ctxs k h]
    _ ≤ (ctxs.take k).length := readLoopOps_read_count_le _
    _ ≤ k := by simp [List.length_take]

/-- Two iteration snapshots: one live, then the halt flag observed cleared
(a `stop()` request between samples). -/
def haltCtxs : List LoopCtx :=
  [{ client_connected := true, is_connected := true, connection_active := true,
     app_running := true, readResult := some [7] },
   { client_connected := true, is_connected := true, connection_active := false,
     app_running := true, readResult := some [9] }]

/-- Witness for `stop_halts_read_loop` at a concrete two-iteration trace. -/
theorem stop_halts_read_loop_witness :
    ((haltCtxs.drop 1).all fun c => !c.connection_active) = true ∧
    (readLoopOps haltCtxs = readLoopOps (haltCtxs.take 1) ∧
      (readLoopOps haltCtxs).count LoopOp.transportRead ≤ 1) :=
  ⟨by decide, stop_halts_read_loop haltCtxs 1 (by decide)⟩

/-- C7 (code behaviour at the failing input): a scan whose enumeration
completes with zero matching devices emits no `device_found` — but it emits
`scan_completed(True)` (the unconditional `finally:`) and never
`scan_completed(False)`; even the timeout path emits
`scan_completed(False)` immediately followed by `scan_completed(True)`. -/
theorem scan_no_match_signals_success :
    run_scan_safe (ScanOutcome.completed noMatchScan) = [ScanEmit.scanCompletedSig true] ∧
    run_scan_safe ScanOutcome.timeout =
      [ScanEmit.errorSig, ScanEmit.scanCompletedSig false, ScanEmit.scanCompletedSig true] := by
  constructor
  · show scanBodyEmits noMatchScan ++ [ScanEmit.scanCompletedSig true] = _
    decide
  · rfl

/-- C9: a database failure while persisting a reading is swallowed — the
data path emits no `error_occurred` signal (the failure is only logged),
the reading is still classified exactly as `classify` and displayed, and on
failure the reading is silently absent from the persisted history. -/
theorem db_failure_swallowed (dbFail : Bool) (db : List Int) (t v : Int) :
    ((on_data_received dbFail db t v).2.2).all
      (fun e => decide (e ≠ SinkEmit.errorSignal)) = true ∧
    (on_data_received dbFail db t v).2.1 =
      (match classify v t with
        | TorqueClass.High => Display.highAlert v
        | TorqueClass.Normal => Display.normalShow v) ∧
    (on_data_received dbFail db t v).1 = (if dbFail then db else db ++ [v]) := by
  refine ⟨?_, ?_, ?_⟩
  · rcases dbFail with _ | _ <;> simp [on_data_received, save_torque_value]
  · by_cases hvt : v > t
    · simp [on_data_received, classify, hvt]
    · simp [on_data_received, classify, hvt]
  · rcases dbFail with _ | _ <;> simp [on_data_received, save_torque_value]

/-- C10: payload decoding is total over byte strings of every length and
always yields a non-negative integer; the empty payload decodes to 0; the
decoded value is emitted as a reading with no error branch reachable from
the decode step. -/
theorem decode_total_nonneg (bs : List Nat) :
    0 ≤ intFromBytesLE bs ∧
    intFromBytesLE [] = 0 ∧
    readLoopOps
      [{ client_connected := true, is_connected := true, connection_active := true,
         app_running := true, readResult := some bs }] =
      [LoopOp.transportRead, LoopOp.reading (intFromBytesLE bs)] := by
  refine ⟨?_, rfl, ?_⟩
  · induction bs with
    | nil => simp [intFromBytesLE]
    | cons b bs ih =>
      have hb : (0 : Int) ≤ (b : Int) := Int.natCast_nonneg b
      have : (0 : Int) ≤ 256 * intFromBytesLE bs := by positivity
      simp only [intFromBytesLE]
      omega
  · simp [readLoopOps, loopGuard]

end Torque
